import Mathlib

set_option autoImplicit false

/-!
Shallow embedding of the exception-tracking abstract domain of
src/core/include/ikos/core/domain/exception/exception.hpp.

The C++ class is a template over an underlying abstract domain type; here
the underlying domain is a carrier type with a bundle of operations
(UnderlyingDomain V T, where T is the threshold type of the templated
widen_threshold_with).  The C++ methods mutate the receiver in place; the
embedding turns each mutating method into a pure function from the old
triple to the new triple, and the value-returning non-const accessor into
a function returning the result paired with the (unchanged) state.
-/

/-- Bundle of the operations the C++ code requires of the template
parameter UnderlyingDomain, with carrier V and threshold type T.
Mutating methods of V become binary functions returning the new value. -/
structure UnderlyingDomain (V : Type) (T : Type) where
  top : V
  bottom : V
  is_bottom : V → Bool
  is_top : V → Bool
  leq : V → V → Bool
  equals : V → V → Bool
  join_with : V → V → V
  join_loop_with : V → V → V
  join_iter_with : V → V → V
  widen_with : V → V → V
  widen_threshold_with : V → V → T → V
  meet_with : V → V → V
  narrow_with : V → V → V

/-- Laws of the base-domain capability contract that some statements
about the wrapper need; every genuine abstract domain satisfies them. -/
structure UnderlyingDomain.Lawful {V T : Type} (L : UnderlyingDomain V T) : Prop where
  is_top_iff : ∀ x, L.is_top x = true ↔ x = L.top
  leq_top : ∀ x, L.leq x L.top = true

/-- The ExceptionDomain triple: normal flow state, state of uncaught
exceptions, and state of caught exceptions propagated through the CFG. -/
structure ExceptionDomain (V : Type) where
  normal : V
  caught_exceptions : V
  propagated_exceptions : V
deriving DecidableEq

namespace ExceptionDomain

variable {V T : Type}

/-- Private constructor ExceptionDomain(TopTag): all three components top. -/
def mk_top_tag (L : UnderlyingDomain V T) : ExceptionDomain V :=
  ⟨L.top, L.top, L.top⟩

/-- Private constructor ExceptionDomain(TopNoExceptionsTag): normal top,
caught and propagated bottom. -/
def mk_top_no_exceptions_tag (L : UnderlyingDomain V T) : ExceptionDomain V :=
  ⟨L.top, L.bottom, L.bottom⟩

/-- Private constructor ExceptionDomain(BottomTag): all three bottom. -/
def mk_bottom_tag (L : UnderlyingDomain V T) : ExceptionDomain V :=
  ⟨L.bottom, L.bottom, L.bottom⟩

/-- The public default constructor ExceptionDomain() delegates to the
TopTag constructor. -/
def mk_default (L : UnderlyingDomain V T) : ExceptionDomain V :=
  mk_top_tag L

/-- Static top(): the TopTag constructor. -/
def top (L : UnderlyingDomain V T) : ExceptionDomain V :=
  mk_top_tag L

/-- Static top_no_exceptions(): the TopNoExceptionsTag constructor. -/
def top_no_exceptions (L : UnderlyingDomain V T) : ExceptionDomain V :=
  mk_top_no_exceptions_tag L

/-- Static bottom(): the BottomTag constructor. -/
def bottom (L : UnderlyingDomain V T) : ExceptionDomain V :=
  mk_bottom_tag L

/-- is_bottom(): conjunction of the three component queries. -/
def is_bottom (L : UnderlyingDomain V T) (d : ExceptionDomain V) : Bool :=
  L.is_bottom d.normal && L.is_bottom d.caught_exceptions &&
    L.is_bottom d.propagated_exceptions

/-- is_top(): conjunction of the three component queries. -/
def is_top (L : UnderlyingDomain V T) (d : ExceptionDomain V) : Bool :=
  L.is_top d.normal && L.is_top d.caught_exceptions &&
    L.is_top d.propagated_exceptions

/-- set_to_bottom(): every component set to bottom. -/
def set_to_bottom (L : UnderlyingDomain V T) (_ : ExceptionDomain V) :
    ExceptionDomain V :=
  ⟨L.bottom, L.bottom, L.bottom⟩

/-- set_to_top(): every component set to top. -/
def set_to_top (L : UnderlyingDomain V T) (_ : ExceptionDomain V) :
    ExceptionDomain V :=
  ⟨L.top, L.top, L.top⟩

/-- leq(other): componentwise conjunction. -/
def leq (L : UnderlyingDomain V T) (a b : ExceptionDomain V) : Bool :=
  L.leq a.normal b.normal && L.leq a.caught_exceptions b.caught_exceptions &&
    L.leq a.propagated_exceptions b.propagated_exceptions

/-- equals(other): componentwise conjunction. -/
def equals (L : UnderlyingDomain V T) (a b : ExceptionDomain V) : Bool :=
  L.equals a.normal b.normal &&
    L.equals a.caught_exceptions b.caught_exceptions &&
    L.equals a.propagated_exceptions b.propagated_exceptions

/-- join_with(other): componentwise. -/
def join_with (L : UnderlyingDomain V T) (a b : ExceptionDomain V) :
    ExceptionDomain V :=
  ⟨L.join_with a.normal b.normal,
   L.join_with a.caught_exceptions b.caught_exceptions,
   L.join_with a.propagated_exceptions b.propagated_exceptions⟩

/-- join_loop_with(other): componentwise. -/
def join_loop_with (L : UnderlyingDomain V T) (a b : ExceptionDomain V) :
    ExceptionDomain V :=
  ⟨L.join_loop_with a.normal b.normal,
   L.join_loop_with a.caught_exceptions b.caught_exceptions,
   L.join_loop_with a.propagated_exceptions b.propagated_exceptions⟩

/-- join_iter_with(other): componentwise. -/
def join_iter_with (L : UnderlyingDomain V T) (a b : ExceptionDomain V) :
    ExceptionDomain V :=
  ⟨L.join_iter_with a.normal b.normal,
   L.join_iter_with a.caught_exceptions b.caught_exceptions,
   L.join_iter_with a.propagated_exceptions b.propagated_exceptions⟩

/-- widen_with(other): componentwise. -/
def widen_with (L : UnderlyingDomain V T) (a b : ExceptionDomain V) :
    ExceptionDomain V :=
  ⟨L.widen_with a.normal b.normal,
   L.widen_with a.caught_exceptions b.caught_exceptions,
   L.widen_with a.propagated_exceptions b.propagated_exceptions⟩

/-- widen_threshold_with(other, threshold): componentwise, the same
threshold value passed to all three components. -/
def widen_threshold_with (L : UnderlyingDomain V T) (a b : ExceptionDomain V)
    (t : T) : ExceptionDomain V :=
  ⟨L.widen_threshold_with a.normal b.normal t,
   L.widen_threshold_with a.caught_exceptions b.caught_exceptions t,
   L.widen_threshold_with a.propagated_exceptions b.propagated_exceptions t⟩

/-- meet_with(other): componentwise. -/
def meet_with (L : UnderlyingDomain V T) (a b : ExceptionDomain V) :
    ExceptionDomain V :=
  ⟨L.meet_with a.normal b.normal,
   L.meet_with a.caught_exceptions b.caught_exceptions,
   L.meet_with a.propagated_exceptions b.propagated_exceptions⟩

/-- narrow_with(other): componentwise. -/
def narrow_with (L : UnderlyingDomain V T) (a b : ExceptionDomain V) :
    ExceptionDomain V :=
  ⟨L.narrow_with a.normal b.normal,
   L.narrow_with a.caught_exceptions b.caught_exceptions,
   L.narrow_with a.propagated_exceptions b.propagated_exceptions⟩

/-- The non-const, value-returning accessor propagated_exceptions():
returns a copy of the component; its body performs no mutation, so the
resulting state is the receiver unchanged. -/
def propagated_exceptions_value (d : ExceptionDomain V) :
    V × ExceptionDomain V :=
  (d.propagated_exceptions, d)

/-- merge_propagated_in_caught_exceptions(): caught joins propagated,
then propagated is set to bottom. -/
def merge_propagated_in_caught_exceptions (L : UnderlyingDomain V T)
    (d : ExceptionDomain V) : ExceptionDomain V :=
  ⟨d.normal,
   L.join_with d.caught_exceptions d.propagated_exceptions,
   L.bottom⟩

/-- merge_caught_in_propagated_exceptions(): propagated joins caught,
then caught is set to bottom. -/
def merge_caught_in_propagated_exceptions (L : UnderlyingDomain V T)
    (d : ExceptionDomain V) : ExceptionDomain V :=
  ⟨d.normal,
   L.bottom,
   L.join_with d.propagated_exceptions d.caught_exceptions⟩

/-- enter_normal(): caught is set to bottom. -/
def enter_normal (L : UnderlyingDomain V T) (d : ExceptionDomain V) :
    ExceptionDomain V :=
  ⟨d.normal, L.bottom, d.propagated_exceptions⟩

/-- enter_catch(): swap normal and caught, then set caught and
propagated to bottom. -/
def enter_catch (L : UnderlyingDomain V T) (d : ExceptionDomain V) :
    ExceptionDomain V :=
  ⟨d.caught_exceptions, L.bottom, L.bottom⟩

/-- ignore_exceptions(): caught and propagated are set to bottom. -/
def ignore_exceptions (L : UnderlyingDomain V T) (d : ExceptionDomain V) :
    ExceptionDomain V :=
  ⟨d.normal, L.bottom, L.bottom⟩

/-- throw_exception(): caught joins normal, then normal is set to
bottom. -/
def throw_exception (L : UnderlyingDomain V T) (d : ExceptionDomain V) :
    ExceptionDomain V :=
  ⟨L.bottom,
   L.join_with d.caught_exceptions d.normal,
   d.propagated_exceptions⟩

/-- resume_exception(): caught joins normal, then normal is set to
bottom. -/
def resume_exception (L : UnderlyingDomain V T) (d : ExceptionDomain V) :
    ExceptionDomain V :=
  ⟨L.bottom,
   L.join_with d.caught_exceptions d.normal,
   d.propagated_exceptions⟩

end ExceptionDomain

/-- The four-element test lattice of the specification: Bottom below Even
and Odd, both below Top, Even and Odd incomparable. -/
inductive Parity where
  | bot
  | even
  | odd
  | top
deriving DecidableEq, Fintype

/-- Least upper bound on the four-element test lattice. -/
def Parity.join : Parity → Parity → Parity
  | .bot, y => y
  | x, .bot => x
  | .even, .even => .even
  | .odd, .odd => .odd
  | _, _ => .top

/-- Greatest lower bound on the four-element test lattice. -/
def Parity.meet : Parity → Parity → Parity
  | .top, y => y
  | x, .top => x
  | .even, .even => .even
  | .odd, .odd => .odd
  | _, _ => .bot

/-- Partial order on the four-element test lattice. -/
def Parity.leq : Parity → Parity → Bool
  | .bot, _ => true
  | _, .top => true
  | .even, .even => true
  | .odd, .odd => true
  | _, _ => false

/-- The test lattice packaged as an underlying domain; on a finite
lattice the widenings coincide with join and narrowing with meet, and
the threshold (of type Unit) is ignored. -/
def parityDomain : UnderlyingDomain Parity Unit where
  top := Parity.top
  bottom := Parity.bot
  is_bottom := fun x => decide (x = Parity.bot)
  is_top := fun x => decide (x = Parity.top)
  leq := Parity.leq
  equals := fun x y => decide (x = y)
  join_with := Parity.join
  join_loop_with := Parity.join
  join_iter_with := Parity.join
  widen_with := Parity.join
  widen_threshold_with := fun x y _ => Parity.join x y
  meet_with := Parity.meet
  narrow_with := Parity.meet

/-- Claim C1: the lattice operations of ExceptionDomain are componentwise
over the three slots: leq holds iff each component is leq its
counterpart, equals is the conjunction of component equality, and
join_with, join_loop_with, join_iter_with, widen_with, meet_with,
narrow_with apply the base operation to each component;
widen_threshold_with forwards the one threshold value to all three. -/
theorem exception_lattice_componentwise (V T : Type) (L : UnderlyingDomain V T)
    (a b : ExceptionDomain V) (t : T) :
    (ExceptionDomain.leq L a b = true ↔
        (L.leq a.normal b.normal = true ∧
         L.leq a.caught_exceptions b.caught_exceptions = true ∧
         L.leq a.propagated_exceptions b.propagated_exceptions = true)) ∧
    (ExceptionDomain.equals L a b = true ↔
        (L.equals a.normal b.normal = true ∧
         L.equals a.caught_exceptions b.caught_exceptions = true ∧
         L.equals a.propagated_exceptions b.propagated_exceptions = true)) ∧
    ExceptionDomain.join_with L a b =
      ⟨L.join_with a.normal b.normal,
       L.join_with a.caught_exceptions b.caught_exceptions,
       L.join_with a.propagated_exceptions b.propagated_exceptions⟩ ∧
    ExceptionDomain.join_loop_with L a b =
      ⟨L.join_loop_with a.normal b.normal,
       L.join_loop_with a.caught_exceptions b.caught_exceptions,
       L.join_loop_with a.propagated_exceptions b.propagated_exceptions⟩ ∧
    ExceptionDomain.join_iter_with L a b =
      ⟨L.join_iter_with a.normal b.normal,
       L.join_iter_with a.caught_exceptions b.caught_exceptions,
       L.join_iter_with a.propagated_exceptions b.propagated_exceptions⟩ ∧
    ExceptionDomain.widen_with L a b =
      ⟨L.widen_with a.normal b.normal,
       L.widen_with a.caught_exceptions b.caught_exceptions,
       L.widen_with a.propagated_exceptions b.propagated_exceptions⟩ ∧
    ExceptionDomain.widen_threshold_with L a b t =
      ⟨L.widen_threshold_with a.normal b.normal t,
       L.widen_threshold_with a.caught_exceptions b.caught_exceptions t,
       L.widen_threshold_with a.propagated_exceptions b.propagated_exceptions t⟩ ∧
    ExceptionDomain.meet_with L a b =
      ⟨L.meet_with a.normal b.normal,
       L.meet_with a.caught_exceptions b.caught_exceptions,
       L.meet_with a.propagated_exceptions b.propagated_exceptions⟩ ∧
    ExceptionDomain.narrow_with L a b =
      ⟨L.narrow_with a.normal b.normal,
       L.narrow_with a.caught_exceptions b.caught_exceptions,
       L.narrow_with a.propagated_exceptions b.propagated_exceptions⟩ := by
  refine ⟨?_, ?_, rfl, rfl, rfl, rfl, rfl, rfl, rfl⟩ <;>
    simp [ExceptionDomain.leq, ExceptionDomain.equals, Bool.and_eq_true,
      and_assoc]

/-- Claim C2: is_bottom holds iff all three components are bottom, and
is_top holds iff all three components are top. -/
theorem is_bottom_is_top_componentwise (V T : Type) (L : UnderlyingDomain V T)
    (d : ExceptionDomain V) :
    (ExceptionDomain.is_bottom L d = true ↔
        (L.is_bottom d.normal = true ∧
         L.is_bottom d.caught_exceptions = true ∧
         L.is_bottom d.propagated_exceptions = true)) ∧
    (ExceptionDomain.is_top L d = true ↔
        (L.is_top d.normal = true ∧
         L.is_top d.caught_exceptions = true ∧
         L.is_top d.propagated_exceptions = true)) := by
  constructor <;>
    simp [ExceptionDomain.is_bottom, ExceptionDomain.is_top,
      Bool.and_eq_true, and_assoc]

/-- Claim C3: throw_exception replaces caught with the join of the old
caught and the old normal, sets normal to bottom and leaves propagated
unchanged; in particular on the test lattice, from normal = Even and
caught = Bottom it yields a bottom normal and caught = Even. -/
theorem throw_exception_spec :
    (∀ (V T : Type) (L : UnderlyingDomain V T) (d : ExceptionDomain V),
        ExceptionDomain.throw_exception L d =
          ⟨L.bottom, L.join_with d.caught_exceptions d.normal,
           d.propagated_exceptions⟩) ∧
    (∀ p : Parity,
        parityDomain.is_bottom
            (ExceptionDomain.throw_exception parityDomain
              ⟨Parity.even, Parity.bot, p⟩).normal = true ∧
        (ExceptionDomain.throw_exception parityDomain
            ⟨Parity.even, Parity.bot, p⟩).caught_exceptions = Parity.even) :=
  ⟨fun _ _ _ _ => rfl, fun _ => ⟨rfl, rfl⟩⟩

/-- Claim C4: enter_catch makes the new normal component the old caught
component, discarding the old normal, and sets caught and propagated to
bottom; in particular on the test lattice, from normal = Odd and
caught = Even it yields normal = Even with bottom caught and
propagated. -/
theorem enter_catch_spec :
    (∀ (V T : Type) (L : UnderlyingDomain V T) (d : ExceptionDomain V),
        ExceptionDomain.enter_catch L d =
          ⟨d.caught_exceptions, L.bottom, L.bottom⟩) ∧
    (∀ p : Parity,
        (ExceptionDomain.enter_catch parityDomain
            ⟨Parity.odd, Parity.even, p⟩).normal = Parity.even ∧
        parityDomain.is_bottom
            (ExceptionDomain.enter_catch parityDomain
              ⟨Parity.odd, Parity.even, p⟩).caught_exceptions = true ∧
        parityDomain.is_bottom
            (ExceptionDomain.enter_catch parityDomain
              ⟨Parity.odd, Parity.even, p⟩).propagated_exceptions = true) :=
  ⟨fun _ _ _ _ => rfl, fun _ => ⟨rfl, rfl, rfl⟩⟩

/-- Claim C5: resume_exception performs exactly the same transformation
as throw_exception: on equal inputs the two produce equal results. -/
theorem resume_equals_throw (V T : Type) (L : UnderlyingDomain V T)
    (d : ExceptionDomain V) :
    ExceptionDomain.resume_exception L d =
      ExceptionDomain.throw_exception L d :=
  rfl

/-- Claim C6: top_no_exceptions builds a value with normal top and
caught and propagated bottom; when the base top is distinct from the
base bottom (for any lawful base domain) that value is not is_top and
is strictly below top: it is leq top but not equal to it. -/
theorem top_no_exceptions_strictly_below_top (V T : Type)
    (L : UnderlyingDomain V T) (hL : L.Lawful) (h : L.top ≠ L.bottom) :
    (ExceptionDomain.top_no_exceptions L).normal = L.top ∧
    (ExceptionDomain.top_no_exceptions L).caught_exceptions = L.bottom ∧
    (ExceptionDomain.top_no_exceptions L).propagated_exceptions = L.bottom ∧
    ExceptionDomain.is_top L (ExceptionDomain.top_no_exceptions L) = false ∧
    ExceptionDomain.leq L (ExceptionDomain.top_no_exceptions L)
        (ExceptionDomain.top L) = true ∧
    ExceptionDomain.top_no_exceptions L ≠ ExceptionDomain.top L := by
  refine ⟨rfl, rfl, rfl, ?_, ?_, ?_⟩
  · have hb : L.is_top L.bottom = false := by
      cases hbool : L.is_top L.bottom with
      | false => rfl
      | true => exact absurd ((hL.is_top_iff L.bottom).mp hbool).symm h
    simp [ExceptionDomain.is_top, ExceptionDomain.top_no_exceptions,
      ExceptionDomain.mk_top_no_exceptions_tag, hb]
  · simp [ExceptionDomain.leq, ExceptionDomain.top,
      ExceptionDomain.top_no_exceptions, ExceptionDomain.mk_top_tag,
      ExceptionDomain.mk_top_no_exceptions_tag, hL.leq_top]
  · intro he
    exact h (congrArg ExceptionDomain.caught_exceptions he).symm

/-- Claim C6 witness: the generic statement instantiated on the test
lattice, hypotheses discharged by computation. -/
theorem top_no_exceptions_strictly_below_top_witness :
    ExceptionDomain.is_top parityDomain
        (ExceptionDomain.top_no_exceptions parityDomain) = false ∧
    ExceptionDomain.leq parityDomain
        (ExceptionDomain.top_no_exceptions parityDomain)
        (ExceptionDomain.top parityDomain) = true ∧
    ExceptionDomain.top_no_exceptions parityDomain ≠
      ExceptionDomain.top parityDomain := by
  have h := top_no_exceptions_strictly_below_top Parity Unit parityDomain
    ⟨by decide, by decide⟩ (by decide)
  exact ⟨h.2.2.2.1, h.2.2.2.2.1, h.2.2.2.2.2⟩

/-- Claim C7: when propagated is bottom and the base join with a bottom
receiver is the identity, merge_caught_in_propagated_exceptions followed
by merge_propagated_in_caught_exceptions restores the original caught
component and leaves propagated bottom (normal is untouched). -/
theorem scope_round_trip (V T : Type) (L : UnderlyingDomain V T)
    (d : ExceptionDomain V)
    (hjoin : ∀ x, L.join_with L.bottom x = x)
    (hp : d.propagated_exceptions = L.bottom) :
    ExceptionDomain.merge_propagated_in_caught_exceptions L
        (ExceptionDomain.merge_caught_in_propagated_exceptions L d) =
      ⟨d.normal, d.caught_exceptions, L.bottom⟩ := by
  simp [ExceptionDomain.merge_propagated_in_caught_exceptions,
    ExceptionDomain.merge_caught_in_propagated_exceptions, hp, hjoin]

/-- Claim C7 witness: the round trip on the test lattice from
caught = Even, propagated = Bottom. -/
theorem scope_round_trip_witness :
    ExceptionDomain.merge_propagated_in_caught_exceptions parityDomain
        (ExceptionDomain.merge_caught_in_propagated_exceptions parityDomain
          ⟨Parity.odd, Parity.even, Parity.bot⟩) =
      ⟨Parity.odd, Parity.even, Parity.bot⟩ :=
  scope_round_trip Parity Unit parityDomain
    ⟨Parity.odd, Parity.even, Parity.bot⟩ (by decide) rfl

/-- Claim C8: each transfer function touches only the components named
in its effect: enter_normal only sets caught to bottom,
ignore_exceptions sets caught and propagated to bottom leaving normal,
throw_exception and resume_exception leave propagated unchanged, and
both merge operations leave normal unchanged. -/
theorem transfer_functions_frame (V T : Type) (L : UnderlyingDomain V T)
    (d : ExceptionDomain V) :
    ((ExceptionDomain.enter_normal L d).normal = d.normal ∧
     (ExceptionDomain.enter_normal L d).propagated_exceptions =
       d.propagated_exceptions ∧
     (ExceptionDomain.enter_normal L d).caught_exceptions = L.bottom) ∧
    ((ExceptionDomain.ignore_exceptions L d).normal = d.normal ∧
     (ExceptionDomain.ignore_exceptions L d).caught_exceptions = L.bottom ∧
     (ExceptionDomain.ignore_exceptions L d).propagated_exceptions =
       L.bottom) ∧
    (ExceptionDomain.throw_exception L d).propagated_exceptions =
      d.propagated_exceptions ∧
    (ExceptionDomain.resume_exception L d).propagated_exceptions =
      d.propagated_exceptions ∧
    (ExceptionDomain.merge_propagated_in_caught_exceptions L d).normal =
      d.normal ∧
    (ExceptionDomain.merge_caught_in_propagated_exceptions L d).normal =
      d.normal :=
  ⟨⟨rfl, rfl, rfl⟩, ⟨rfl, rfl, rfl⟩, rfl, rfl, rfl, rfl⟩

/-- Claim C9: the default constructor produces the top value, with all
three components top, and (whenever the base top differs from the base
bottom) not the top_no_exceptions value. -/
theorem default_constructor_is_top (V T : Type) (L : UnderlyingDomain V T) :
    ExceptionDomain.mk_default L = ExceptionDomain.top L ∧
    (ExceptionDomain.mk_default L).normal = L.top ∧
    (ExceptionDomain.mk_default L).caught_exceptions = L.top ∧
    (ExceptionDomain.mk_default L).propagated_exceptions = L.top ∧
    (L.top ≠ L.bottom →
      ExceptionDomain.mk_default L ≠
        ExceptionDomain.top_no_exceptions L) := by
  refine ⟨rfl, rfl, rfl, rfl, fun h he => h ?_⟩
  exact congrArg ExceptionDomain.caught_exceptions he

/-- Claim C9 witness: on the test lattice the default constructor gives
top and differs from top_no_exceptions. -/
theorem default_constructor_is_top_witness :
    ExceptionDomain.mk_default parityDomain =
        ExceptionDomain.top parityDomain ∧
    ExceptionDomain.mk_default parityDomain ≠
      ExceptionDomain.top_no_exceptions parityDomain :=
  ⟨(default_constructor_is_top Parity Unit parityDomain).1,
   (default_constructor_is_top Parity Unit parityDomain).2.2.2.2 (by decide)⟩

/-- Claim C10: the value-returning propagated_exceptions accessor
returns a copy of the propagated component and mutates nothing: all
three components of the receiver are unchanged. -/
theorem propagated_exceptions_value_spec (V : Type) (d : ExceptionDomain V) :
    (ExceptionDomain.propagated_exceptions_value d).1 =
      d.propagated_exceptions ∧
    (ExceptionDomain.propagated_exceptions_value d).2.normal = d.normal ∧
    (ExceptionDomain.propagated_exceptions_value d).2.caught_exceptions =
      d.caught_exceptions ∧
    (ExceptionDomain.propagated_exceptions_value d).2.propagated_exceptions =
      d.propagated_exceptions ∧
    (ExceptionDomain.propagated_exceptions_value d).2 = d :=
  ⟨rfl, rfl, rfl, rfl, rfl⟩
